import Mathlib

/-!
Shallow embedding of the ClarityTracking conversion-tracking pipeline:
the Event store, the ingestion endpoint, the duplicate detector, the
health scorer and the alert generator, together with the parts of the
React frontend (tracker snippet, registration form, authenticated fetch
wrapper, alerts display) that the verified properties mention.
-/

namespace ClarityTracking

/-- Optional user identifiers carried by an ingested event: each field is
individually optional and presence drives the EMQ scoring. -/
structure UserData where
  email : Option String := none
  phone : Option String := none
  browser_id : Option String := none
  click_id : Option String := none
  user_agent : Option String := none
  deriving Repr, DecidableEq

/-- One ingested event row of the Event store.  An absent client `event_id`
is represented by the empty string. -/
structure Event where
  id : Nat
  website_id : Nat
  event_name : String
  event_id : String
  event_time : Int
  received_at : Int
  user_data : UserData
  deriving Repr, DecidableEq

/-- The Event store: the list of all persisted Event rows, all tenants mixed. -/
abbrev Store := List Event

/-- All events belonging to one website: the tenant scoping filter applied by
every read. -/
def eventsOf (s : Store) (ws : Nat) : List Event :=
  s.filter (fun e => e.website_id == ws)

/-- Number of Event rows stored for a website. -/
def countFor (s : Store) (ws : Nat) : Nat :=
  (eventsOf s ws).length

/-- Modelled from the spec: the error taxonomy of the ingestion endpoint
(the backend FastAPI code is not part of the sources; only its contract is). -/
inductive IngestError
  | validationError
  deriving Repr, DecidableEq

/-- The body of `POST /api/ingest/event` after JSON decoding; an absent
`event_id` is the empty string. -/
structure IngestPayload where
  event_name : String
  event_time : Int
  event_id : String
  user_data : UserData
  deriving Repr, DecidableEq

/-- Far-future cutoff (unix seconds) for plausible client timestamps. -/
def MAX_EVENT_TIME : Int := 4102444800

/-- Modelled from the spec: ingestion validation — `event_name` non-empty and
`event_time` a plausible (non-negative, not far-future) unix timestamp. -/
def validPayload (p : IngestPayload) : Bool :=
  p.event_name != "" && decide (0 ≤ p.event_time) && decide (p.event_time ≤ MAX_EVENT_TIME)

/-- Modelled from the spec: the ingestion endpoint.  A valid payload appends
exactly one new Event row for the authenticated website (`ws`); an invalid
payload is rejected with a validation error and the store is unchanged.
`now` is the server-assigned `received_at`, `freshId` the system row id. -/
def ingest (s : Store) (ws : Nat) (now : Int) (freshId : Nat) (p : IngestPayload) :
    Except IngestError Unit × Store :=
  if validPayload p then
    (Except.ok (),
      { id := freshId, website_id := ws, event_name := p.event_name,
        event_id := p.event_id, event_time := p.event_time,
        received_at := now, user_data := p.user_data } :: s)
  else
    (Except.error IngestError.validationError, s)

/-- Documented EMQ weight: email present. -/
def W_EMAIL : Nat := 3

/-- Documented EMQ weight: phone present. -/
def W_PHONE : Nat := 2

/-- Documented EMQ weight: browser id (fbp-equivalent) present. -/
def W_BROWSER_ID : Nat := 2

/-- Documented EMQ weight: click id (fbc-equivalent) present. -/
def W_CLICK_ID : Nat := 2

/-- Documented EMQ weight: user agent present. -/
def W_USER_AGENT : Nat := 1

/-- Maximum possible per-event identifier weight sum. -/
def MAX_WEIGHT_SUM : Nat :=
  W_EMAIL + W_PHONE + W_BROWSER_ID + W_CLICK_ID + W_USER_AGENT

/-- Modelled from the spec: the weighted count of strong identifiers present
on one event. -/
def identifierWeight (u : UserData) : Nat :=
  (if u.email.isSome then W_EMAIL else 0) +
  (if u.phone.isSome then W_PHONE else 0) +
  (if u.browser_id.isSome then W_BROWSER_ID else 0) +
  (if u.click_id.isSome then W_CLICK_ID else 0) +
  (if u.user_agent.isSome then W_USER_AGENT else 0)

/-- Modelled from the spec: one event's EMQ contribution, the weighted sum
normalized to a 0-10 scale by dividing by the maximum possible sum and
multiplying by 10. -/
def eventScore (e : Event) : ℚ :=
  (identifierWeight e.user_data : ℚ) / (MAX_WEIGHT_SUM : ℚ) * 10

/-- Health status of a per-event-name EMQ score. -/
inductive HealthStatus
  | healthy
  | warning
  | error
  deriving Repr, DecidableEq

/-- Named threshold: scores at or above it are healthy. -/
def HEALTHY_THRESHOLD : ℚ := 7

/-- Named threshold: scores at or above it (but below healthy) are warnings. -/
def WARNING_THRESHOLD : ℚ := 4

/-- Modelled from the spec: status classification of an EMQ score. -/
def statusOf (q : ℚ) : HealthStatus :=
  if HEALTHY_THRESHOLD ≤ q then HealthStatus.healthy
  else if WARNING_THRESHOLD ≤ q then HealthStatus.warning
  else HealthStatus.error

/-- Derived per-`(website, event_name)` health metric. -/
structure HealthMetric where
  event_name : String
  emq_score : ℚ
  status : HealthStatus
  sample_count : Nat
  deriving Repr, DecidableEq

/-- Modelled from the spec: the Health Scorer over one website's events.
For each distinct `event_name` observed, the EMQ score is the per-event
normalized weighted sum averaged across the sample; an event name with no
events is simply never produced (nothing to score). -/
def healthOf (evs : List Event) : List HealthMetric :=
  ((evs.map (fun e => e.event_name)).dedup).map (fun n =>
    let sample := evs.filter (fun e => e.event_name == n)
    let avg := (sample.map eventScore).sum / (sample.length : ℚ)
    { event_name := n, emq_score := avg, status := statusOf avg,
      sample_count := sample.length })

/-- Modelled from the spec: `score(website_id)`, the Health Scorer endpoint
computation, scoped to the authenticated website. -/
def score (s : Store) (ws : Nat) : List HealthMetric :=
  healthOf (eventsOf s ws)

/-- Derived duplicate group: events plausibly representing the same
real-world action arriving more than once.  Fallback groups of id-less
events carry an empty `event_id`. -/
structure DuplicateGroup where
  event_name : String
  event_id : String
  count : Nat
  first_seen : Int
  last_seen : Int
  deriving Repr, DecidableEq

/-- Earliest `received_at` of a group (0 on the empty list, never hit on
produced groups). -/
def firstSeen : List Event → Int
  | [] => 0
  | e :: es => es.foldl (fun a x => min a x.received_at) e.received_at

/-- Latest `received_at` of a group. -/
def lastSeen : List Event → Int
  | [] => 0
  | e :: es => es.foldl (fun a x => max a x.received_at) e.received_at

/-- Configured fallback duplicate time window, in seconds. -/
def DUP_WINDOW : Int := 60

/-- Modelled from the spec: the identifier used by the fallback grouping of
id-less events — email, or else phone, or else browser id. -/
def fallbackKey (u : UserData) : Option String :=
  match u.email with
  | some v => some v
  | none =>
    match u.phone with
    | some v => some v
    | none => u.browser_id

/-- Modelled from the spec: duplicate groups of events carrying a non-empty
`event_id`, grouped by `(event_name, event_id)`; only groups with more than
one row are kept. -/
def idDupGroupsOf (evs : List Event) : List DuplicateGroup :=
  let withId := evs.filter (fun e => e.event_id != "")
  ((withId.map (fun e => (e.event_name, e.event_id))).dedup).filterMap (fun k =>
    let grp := withId.filter (fun e => e.event_name == k.1 && e.event_id == k.2)
    if 1 < grp.length then
      some { event_name := k.1, event_id := k.2, count := grp.length,
             first_seen := firstSeen grp, last_seen := lastSeen grp }
    else none)

/-- Modelled from the spec: the fallback grouping of events lacking an
`event_id`, by `(event_name, email-or-phone-or-browser_id)` within the
configured time window. -/
def fallbackDupGroupsOf (evs : List Event) : List DuplicateGroup :=
  let noId := evs.filter (fun e => e.event_id == "" && (fallbackKey e.user_data).isSome)
  ((noId.map (fun e => (e.event_name, fallbackKey e.user_data))).dedup).filterMap (fun k =>
    let grp := noId.filter (fun e => e.event_name == k.1 && fallbackKey e.user_data == k.2)
    if 1 < grp.length ∧ lastSeen grp - firstSeen grp ≤ DUP_WINDOW then
      some { event_name := k.1, event_id := "", count := grp.length,
             first_seen := firstSeen grp, last_seen := lastSeen grp }
    else none)

/-- Ordering of returned groups: count descending, then last seen
descending, so the most costly duplication surfaces first. -/
def groupBefore (a b : DuplicateGroup) : Bool :=
  decide (b.count < a.count) || (a.count == b.count && decide (b.last_seen ≤ a.last_seen))

/-- Insertion step of the group ordering. -/
def insertGroup (g : DuplicateGroup) : List DuplicateGroup → List DuplicateGroup
  | [] => [g]
  | h :: t => if groupBefore g h then g :: h :: t else h :: insertGroup g t

/-- Insertion sort of duplicate groups by `groupBefore`. -/
def sortGroups : List DuplicateGroup → List DuplicateGroup
  | [] => []
  | h :: t => insertGroup h (sortGroups t)

/-- Modelled from the spec: all duplicate groups of one website's events —
the `(event_name, event_id)` groups plus the fallback groups — ordered by
count then recency. -/
def dupGroupsOf (evs : List Event) : List DuplicateGroup :=
  sortGroups (idDupGroupsOf evs ++ fallbackDupGroupsOf evs)

/-- Modelled from the spec: `find_duplicates(website_id)`, the Duplicate
Detector endpoint computation, scoped to the authenticated website. -/
def find_duplicates (s : Store) (ws : Nat) : List DuplicateGroup :=
  dupGroupsOf (eventsOf s ws)

/-- The events of one website sharing a given `(event_name, event_id)`
pair: the rows of one primary duplicate group. -/
def idGroupEvents (evs : List Event) (name id : String) : List Event :=
  evs.filter (fun e => e.event_name == name && e.event_id == id)

/-- The id-less events of one website sharing a given `event_name` and
fallback identifier: the rows of one fallback duplicate group. -/
def fallbackGroupEvents (evs : List Event) (name key : String) : List Event :=
  evs.filter (fun e =>
    e.event_id == "" && e.event_name == name && fallbackKey e.user_data == some key)

/-- Two "Purchase" events for website 7 sharing `event_id` "abc". -/
def dupStore : Store :=
  [⟨0, 7, "Purchase", "abc", 50, 60, {}⟩,
   ⟨1, 7, "Purchase", "abc", 52, 65, {}⟩]

/-- Two id-less "Lead" events for website 7 sharing an email, received 30
seconds apart. -/
def fallbackStore : Store :=
  [⟨0, 7, "Lead", "", 100, 100, { email := some "a@b.c" }⟩,
   ⟨1, 7, "Lead", "", 130, 130, { email := some "a@b.c" }⟩]

/-- A "Purchase" event carrying only a user agent. -/
def uaEvent : Event :=
  ⟨0, 1, "Purchase", "e1", 100, 110, { user_agent := some "Mozilla" }⟩

/-- A "Purchase" event carrying email, phone, browser id, click id and user
agent. -/
def fullEvent : Event :=
  ⟨1, 1, "Purchase", "e2", 100, 110,
    { email := some "a@b.c", phone := some "123", browser_id := some "fb.1",
      click_id := some "fb.2", user_agent := some "Mozilla" }⟩

/-- Alert severity. -/
inductive Severity
  | error
  | warning
  deriving Repr, DecidableEq

/-- Derived alert record, ephemeral per request. -/
structure Alert where
  id : String
  severity : Severity
  title : String
  message : String
  deriving Repr, DecidableEq

/-- Duplicate-count threshold at or above which a group raises an alert. -/
def DUP_ALERT_THRESHOLD : Nat := 3

/-- Modelled from the spec: the alert derived from one health metric — an
error-status metric raises an error alert, a warning-status metric a warning
alert, a healthy metric none. -/
def healthAlert (m : HealthMetric) : Option Alert :=
  match m.status with
  | HealthStatus.error =>
    some { id := "health-error-" ++ m.event_name, severity := Severity.error,
           title := "Low event match quality: " ++ m.event_name,
           message := "EMQ score " ++ toString m.emq_score.num ++ "/" ++
             toString m.emq_score.den ++ " — missing identifiers" }
  | HealthStatus.warning =>
    some { id := "health-warning-" ++ m.event_name, severity := Severity.warning,
           title := "Degraded event match quality: " ++ m.event_name,
           message := "EMQ score " ++ toString m.emq_score.num ++ "/" ++
             toString m.emq_score.den ++ " — missing identifiers" }
  | HealthStatus.healthy => none

/-- Modelled from the spec: the alert derived from one duplicate group —
a warning when its count reaches the threshold, none below it. -/
def dupAlert (g : DuplicateGroup) : Option Alert :=
  if DUP_ALERT_THRESHOLD ≤ g.count then
    some { id := "dup-" ++ g.event_name ++ "-" ++ g.event_id,
           severity := Severity.warning,
           title := "Duplicate events: " ++ g.event_name,
           message := toString g.count ++ " duplicate events detected" }
  else none

/-- Modelled from the spec: `alerts(website_id)`, the Alert Generator —
re-runs the Health Scorer and the Duplicate Detector for the website and
maps threshold crossings to alerts. -/
def alerts (s : Store) (ws : Nat) : List Alert :=
  (score s ws).filterMap healthAlert ++ (find_duplicates s ws).filterMap dupAlert

/-- What the `AlertsDisplay` component renders. -/
inductive AlertsView
  | loading
  | failed (msg : String)
  | allNominal
  | alertList (items : List Alert)
  deriving Repr, DecidableEq

/-- The render decision of the frontend `AlertsDisplay` component: a loading
notice while fetching, the fetch error if one occurred, an explicit
all-nominal panel when the alert list is empty, and the alert list
otherwise. -/
def alertsDisplayView (isLoading : Bool) (err : Option String)
    (items : List Alert) : AlertsView :=
  if isLoading then AlertsView.loading
  else
    match err with
    | some m => AlertsView.failed m
    | none => if items.isEmpty then AlertsView.allNominal else AlertsView.alertList items

/-- The browser state the tracker snippet reads: cookies, URL query
parameters, referrer, user agent, current location, clock (milliseconds) and
the random suffix `Math.random` produces for event ids. -/
structure BrowserEnv where
  cookies : List (String × String)
  urlParams : List (String × String)
  referrer : String
  userAgent : String
  href : String
  nowMs : Nat
  randSuffix : String
  deriving Repr, DecidableEq

/-- `getCookie` of the tracker snippet: the cookie's value, where a missing
cookie or an empty value reads as null. -/
def getCookie (env : BrowserEnv) (name : String) : Option String :=
  match env.cookies.lookup name with
  | some v => if v = "" then none else some v
  | none => none

/-- `params.get(name) || undefined` of the tracker snippet. -/
def getParam (env : BrowserEnv) (name : String) : Option String :=
  match env.urlParams.lookup name with
  | some v => if v = "" then none else some v
  | none => none

/-- `getMarketingData` of the tracker snippet: marketing parameters from the
URL and the referrer, absent values being undefined. -/
def getMarketingData (env : BrowserEnv) : List (String × Option String) :=
  [("source", getParam env "source"),
   ("utm_source", getParam env "utm_source"),
   ("utm_medium", getParam env "utm_medium"),
   ("utm_campaign", getParam env "utm_campaign"),
   ("referer", if env.referrer = "" then none else some env.referrer)]

/-- The `Object.entries(...).filter(([_, v]) => v !== undefined && v !== null
&& v !== '')` normalization of the tracker snippet. -/
def cleanEntries (l : List (String × Option String)) : List (String × String) :=
  l.filterMap (fun kv =>
    match kv.2 with
    | some v => if v = "" then none else some (kv.1, v)
    | none => none)

/-- `getUserData` of the tracker snippet: user agent, the `_fbp` and `_fbc`
cookies and the marketing data, with undefined/null/empty fields dropped. -/
def getUserData (env : BrowserEnv) : List (String × String) :=
  cleanEntries
    ([("user_agent", if env.userAgent = "" then none else some env.userAgent),
      ("fbp", getCookie env "_fbp"),
      ("fbc", getCookie env "_fbc")] ++ getMarketingData env)

/-- `generateEventId` of the tracker snippet. -/
def generateEventId (env : BrowserEnv) : String :=
  "ctracking_evt_" ++ toString env.nowMs ++ "." ++ env.randSuffix

/-- The JSON body the tracker transmits; `none` marks a field absent from
the serialized object. -/
structure TrackPayload where
  event_name : Option String
  event_time : Option Nat
  event_id : Option String
  event_source_url : Option String
  user_data : Option (List (String × String))
  custom_data : Option (List (String × String))
  deriving Repr, DecidableEq

/-- The top-level payload cleaning of `sendEvent` applied to one optional
string field: empty strings are dropped like null/undefined. -/
def cleanStringField (v : Option String) : Option String :=
  match v with
  | some s => if s = "" then none else some s
  | none => none

/-- JavaScript object spread `{...base, ...override}` restricted to what the
payload needs: override entries replace base entries with the same key. -/
def mergeEntries (base override : List (String × String)) : List (String × String) :=
  base.filter (fun kv => !(override.any (fun ov => ov.1 == kv.1))) ++ override

/-- `sendEvent` of the tracker snippet: cleans the payload one last time —
dropping undefined/null/empty top-level fields and undefined/null/empty
entries inside `user_data` — before POSTing it. -/
def sendEvent (p : TrackPayload) : TrackPayload :=
  { event_name := cleanStringField p.event_name
    event_time := p.event_time
    event_id := cleanStringField p.event_id
    event_source_url := cleanStringField p.event_source_url
    user_data := p.user_data.map (fun entries => entries.filter (fun kv => kv.2 != ""))
    custom_data := p.custom_data }

/-- `track` of the tracker snippet: assembles the event payload (name, unix
seconds, generated event id, page URL, merged user data, custom data) and
hands it to `sendEvent`. -/
def track (env : BrowserEnv) (eventName : String)
    (customData userData : List (String × String)) : TrackPayload :=
  sendEvent
    { event_name := some eventName
      event_time := some (env.nowMs / 1000)
      event_id := some (generateEventId env)
      event_source_url := some env.href
      user_data := some (mergeEntries (getUserData env) userData)
      custom_data := some customData }

/-- The `user_data` keys of the `POST /api/ingest/event` body schema exactly
as the claim states them: email, phone, browser_id, click_id, user_agent,
utm_*, referer. -/
def claimedUserDataKey (k : String) : Bool :=
  k == "email" || k == "phone" || k == "browser_id" || k == "click_id" ||
  k == "user_agent" || k == "referer" || k.startsWith "utm_"

/-- The transmitted-payload shape exactly as the claim states it: event_name,
event_time, a non-empty event_id, event_source_url, and a user_data object
whose entries use the claimed keys and are non-empty. -/
def claimedPayloadSchema (p : TrackPayload) : Bool :=
  p.event_name.isSome && p.event_time.isSome &&
  (match p.event_id with | some s => s != "" | none => false) &&
  p.event_source_url.isSome &&
  (match p.user_data with
   | some entries => entries.all (fun kv => claimedUserDataKey kv.1 && kv.2 != "")
   | none => false)

/-- The keys the tracker actually gathers into `user_data` by itself. -/
def trackerBaseKeys : List String :=
  ["user_agent", "fbp", "fbc", "source", "utm_source", "utm_medium",
   "utm_campaign", "referer"]

/-- A browser state with a `_fbp` cookie set, as Meta's pixel leaves it. -/
def demoEnv : BrowserEnv :=
  { cookies := [("_fbp", "fb.1.1700.123")], urlParams := [], referrer := "",
    userAgent := "Mozilla/5.0", href := "https://shop.example/checkout",
    nowMs := 1700000000000, randSuffix := "k3j9q2h" }

/-- JavaScript runtime errors the embedded components can raise. -/
inductive JsError
  | referenceError (name : String)
  deriving Repr, DecidableEq

/-- Observable outcome of one `handleSubmit` run of `RegistrationForm`:
whether it completed or threw, which collaborators were invoked, and the
last value passed to `setError` (if any). -/
structure HandleSubmitResult where
  outcome : Except JsError Unit
  calledRegisterUser : Bool
  calledOnRegisterSuccess : Bool
  errorState : Option (Option String)
  deriving Repr

/-- The identifiers bound in `RegistrationForm`'s body: the `useState` pairs
for email, password and error.  The success pair is commented out, so
`setSuccess` is not among them. -/
def registrationFormScope : List String :=
  ["email", "setEmail", "password", "setPassword", "error", "setError"]

/-- `handleSubmit` of `RegistrationForm`, step by step: `setError(null)`,
then `setSuccess(false)`, then the try block awaiting `registerUser` and
calling `onRegisterSuccess`, with the catch setting the error message.
A call to an identifier missing from the scope throws a ReferenceError,
abandoning the rest. -/
def handleSubmit (scope : List String) (registerOutcome : Except String Unit) :
    HandleSubmitResult :=
  if !(scope.contains "setError") then
    { outcome := Except.error (JsError.referenceError "setError"),
      calledRegisterUser := false, calledOnRegisterSuccess := false,
      errorState := none }
  else if !(scope.contains "setSuccess") then
    { outcome := Except.error (JsError.referenceError "setSuccess"),
      calledRegisterUser := false, calledOnRegisterSuccess := false,
      errorState := some none }
  else
    match registerOutcome with
    | Except.ok _ =>
      { outcome := Except.ok (), calledRegisterUser := true,
        calledOnRegisterSuccess := true, errorState := some none }
    | Except.error msg =>
      { outcome := Except.ok (), calledRegisterUser := true,
        calledOnRegisterSuccess := false, errorState := some (some msg) }

/-- A resolved `fetch` response as `authFetch` observes it. -/
structure JsResponse where
  status : Nat
  ok : Bool
  body : String
  deriving Repr, DecidableEq

/-- The header object `authFetch` builds: content type, the caller's
headers, and a bearer token when one is stored. -/
def authFetchHeaders (token : Option String)
    (optionHeaders : List (String × String)) : List (String × String) :=
  let headers := ("Content-Type", "application/json") :: optionHeaders
  match token with
  | some t => headers ++ [("Authorization", "Bearer " ++ t)]
  | none => headers

/-- `authFetch` after the underlying `fetch` resolved: on a 401 it
dispatches the `sessionExpired` window event and throws "Session expired.";
otherwise it returns the response.  The second component lists the window
events dispatched. -/
def authFetch (token : Option String) (response : JsResponse) :
    Except String JsResponse × List String :=
  if response.status == 401 then
    (Except.error "Session expired.", ["sessionExpired"])
  else
    (Except.ok response, [])

end ClarityTracking

namespace ClarityTracking

/-- C1: a valid payload makes ingestion succeed, appending exactly one row
for the authenticated website (no upsert of existing rows) and leaving every
other website's count unchanged. -/
theorem ingest_adds_exactly_one_event (s : Store) (ws : Nat) (now : Int)
    (freshId : Nat) (p : IngestPayload) (h : validPayload p = true) :
    (ingest s ws now freshId p).1 = Except.ok () ∧
    (∃ e : Event, e.website_id = ws ∧ (ingest s ws now freshId p).2 = e :: s) ∧
    countFor (ingest s ws now freshId p).2 ws = countFor s ws + 1 ∧
    ∀ w : Nat, w ≠ ws → countFor (ingest s ws now freshId p).2 w = countFor s w := by
  refine ⟨?_, ?_, ?_, ?_⟩
  · simp [ingest, h]
  · have h2 : (ingest s ws now freshId p).2 =
        ({ id := freshId, website_id := ws, event_name := p.event_name,
           event_id := p.event_id, event_time := p.event_time,
           received_at := now, user_data := p.user_data } : Event) :: s := by
      simp [ingest, h]
    exact ⟨_, rfl, h2⟩
  · simp [ingest, h, countFor, eventsOf]
  · intro w hw
    simp [ingest, h, countFor, eventsOf, List.filter_cons]
    rw [if_neg (fun hws => hw hws.symm)]

/-- C1 witness: ingesting a valid "Purchase" payload whose `event_id`
duplicates an already-stored event for website 1 still appends exactly one
row for website 1 and leaves website 2's count unchanged. -/
theorem ingest_adds_exactly_one_event_witness :
    validPayload ⟨"Purchase", 100, "abc", {}⟩ = true ∧
    countFor ((ingest [⟨0, 1, "Purchase", "abc", 50, 60, {}⟩,
        ⟨1, 2, "PageView", "xyz", 40, 45, {}⟩] 1 200 7
        ⟨"Purchase", 100, "abc", {}⟩).2) 1 =
      countFor [⟨0, 1, "Purchase", "abc", 50, 60, {}⟩,
        ⟨1, 2, "PageView", "xyz", 40, 45, {}⟩] 1 + 1 ∧
    countFor ((ingest [⟨0, 1, "Purchase", "abc", 50, 60, {}⟩,
        ⟨1, 2, "PageView", "xyz", 40, 45, {}⟩] 1 200 7
        ⟨"Purchase", 100, "abc", {}⟩).2) 2 =
      countFor [⟨0, 1, "Purchase", "abc", 50, 60, {}⟩,
        ⟨1, 2, "PageView", "xyz", 40, 45, {}⟩] 2 := by
  have h : validPayload ⟨"Purchase", 100, "abc", {}⟩ = true := by decide
  have main := ingest_adds_exactly_one_event
    [⟨0, 1, "Purchase", "abc", 50, 60, {}⟩, ⟨1, 2, "PageView", "xyz", 40, 45, {}⟩]
    1 200 7 ⟨"Purchase", 100, "abc", {}⟩ h
  exact ⟨h, main.2.2.1, main.2.2.2 2 (by decide)⟩

/-- C7: an invalid ingestion payload is rejected with a validation error and
the Event store is left unchanged. -/
theorem invalid_payload_rejected_store_unchanged (s : Store) (ws : Nat)
    (now : Int) (freshId : Nat) (p : IngestPayload)
    (h : validPayload p = false) :
    ingest s ws now freshId p = (Except.error IngestError.validationError, s) := by
  simp [ingest, h]

/-- Helper: a score classifies as healthy exactly when it reaches the
healthy threshold. -/
theorem statusOf_eq_healthy_iff (q : ℚ) :
    statusOf q = HealthStatus.healthy ↔ HEALTHY_THRESHOLD ≤ q := by
  unfold statusOf
  split_ifs with h1 h2 <;> simp_all

/-- Helper: a score classifies as warning exactly when it is between the
warning and healthy thresholds. -/
theorem statusOf_eq_warning_iff (q : ℚ) :
    statusOf q = HealthStatus.warning ↔
      WARNING_THRESHOLD ≤ q ∧ q < HEALTHY_THRESHOLD := by
  unfold statusOf
  split_ifs with h1 h2 <;> simp_all

/-- Helper: a score classifies as error exactly when it is below the warning
threshold. -/
theorem statusOf_eq_error_iff (q : ℚ) :
    statusOf q = HealthStatus.error ↔ q < WARNING_THRESHOLD := by
  unfold statusOf
  have h : WARNING_THRESHOLD ≤ HEALTHY_THRESHOLD := by
    norm_num [WARNING_THRESHOLD, HEALTHY_THRESHOLD]
  split_ifs with h1 h2 <;> simp_all
  linarith

/-- C2: every Health Scorer metric carries the per-event weighted identifier
sum (email +3, phone +2, browser id +2, click id +2, user agent +1)
normalized to 0-10 by dividing by the maximum sum and multiplying by 10,
averaged across the sample, with status healthy iff score >= 7, warning iff
4 <= score < 7 and error iff score < 4; a lone user-agent-only event scores
error and a lone fully-identified event scores healthy. -/
theorem health_scorer_emq_and_status :
    (∀ (evs : List Event) (m : HealthMetric), m ∈ healthOf evs →
      m.emq_score =
        ((evs.filter (fun e => e.event_name == m.event_name)).map
            (fun e => (identifierWeight e.user_data : ℚ) / (MAX_WEIGHT_SUM : ℚ) * 10)).sum /
          ((evs.filter (fun e => e.event_name == m.event_name)).length : ℚ) ∧
      m.sample_count = (evs.filter (fun e => e.event_name == m.event_name)).length ∧
      (m.status = HealthStatus.healthy ↔ (7 : ℚ) ≤ m.emq_score) ∧
      (m.status = HealthStatus.warning ↔ (4 : ℚ) ≤ m.emq_score ∧ m.emq_score < (7 : ℚ)) ∧
      (m.status = HealthStatus.error ↔ m.emq_score < (4 : ℚ))) ∧
    score [uaEvent] 1 = [⟨"Purchase", 1, HealthStatus.error, 1⟩] ∧
    score [fullEvent] 1 = [⟨"Purchase", 10, HealthStatus.healthy, 1⟩] := by
  refine ⟨?_, ?_, ?_⟩
  · intro evs m hm
    unfold healthOf at hm
    rw [List.mem_map] at hm
    obtain ⟨n, hn, rfl⟩ := hm
    refine ⟨rfl, rfl, ?_, ?_, ?_⟩
    · simpa [HEALTHY_THRESHOLD] using statusOf_eq_healthy_iff _
    · simpa [HEALTHY_THRESHOLD, WARNING_THRESHOLD] using statusOf_eq_warning_iff _
    · simpa [WARNING_THRESHOLD] using statusOf_eq_error_iff _
  · simp [score, eventsOf, healthOf, uaEvent, eventScore, identifierWeight, statusOf,
      HEALTHY_THRESHOLD, WARNING_THRESHOLD, MAX_WEIGHT_SUM, W_EMAIL, W_PHONE,
      W_BROWSER_ID, W_CLICK_ID, W_USER_AGENT]
  · simp [score, eventsOf, healthOf, fullEvent, eventScore, identifierWeight, statusOf,
      HEALTHY_THRESHOLD, WARNING_THRESHOLD, MAX_WEIGHT_SUM, W_EMAIL, W_PHONE,
      W_BROWSER_ID, W_CLICK_ID, W_USER_AGENT]
    norm_num

/-- C2 witness: the theorem applied to the concrete sample consisting of the
user-agent-only event, whose metric is in the scorer output and classifies
as error. -/
theorem health_scorer_emq_and_status_witness :
    (⟨"Purchase", 1, HealthStatus.error, 1⟩ : HealthMetric) ∈ healthOf [uaEvent] ∧
    ((⟨"Purchase", 1, HealthStatus.error, 1⟩ : HealthMetric).status = HealthStatus.error ↔
      (⟨"Purchase", 1, HealthStatus.error, 1⟩ : HealthMetric).emq_score < (4 : ℚ)) := by
  have hm : (⟨"Purchase", 1, HealthStatus.error, 1⟩ : HealthMetric) ∈ healthOf [uaEvent] := by
    simp [healthOf, uaEvent, eventScore, identifierWeight, statusOf,
      HEALTHY_THRESHOLD, WARNING_THRESHOLD, MAX_WEIGHT_SUM, W_EMAIL, W_PHONE,
      W_BROWSER_ID, W_CLICK_ID, W_USER_AGENT]
  exact ⟨hm, (health_scorer_emq_and_status.1 [uaEvent] _ hm).2.2.2.2⟩

/-- Helper: membership through the insertion step of the group ordering. -/
theorem mem_insertGroup {a g : DuplicateGroup} :
    ∀ {l : List DuplicateGroup}, a ∈ insertGroup g l ↔ a = g ∨ a ∈ l := by
  intro l
  induction l with
  | nil => simp [insertGroup]
  | cons h t ih =>
    unfold insertGroup
    split
    · simp [List.mem_cons]
    · simp only [List.mem_cons, ih]
      tauto

/-- Helper: sorting the duplicate groups preserves membership. -/
theorem mem_sortGroups {a : DuplicateGroup} :
    ∀ {l : List DuplicateGroup}, a ∈ sortGroups l ↔ a ∈ l := by
  intro l
  induction l with
  | nil => simp [sortGroups]
  | cons h t ih => simp [sortGroups, mem_insertGroup, ih, List.mem_cons]

/-- C3 counterexample: for the store holding two id-less "Lead" events for
website 7 sharing an email within the time window, `find_duplicates` returns
a fallback group whose `event_id` is empty, so its output is not restricted
to the non-empty-`event_id` `(event_name, event_id)` groups. -/
theorem find_duplicates_id_grouping_counterexample :
    ¬ (∀ g ∈ find_duplicates fallbackStore 7, g.event_id ≠ "") := by
  intro h
  exact h ⟨"Lead", "", 2, 100, 130⟩ (by decide) rfl

/-- Helper: restricted to a non-empty event id, filtering the id-carrying
events for one `(event_name, event_id)` pair selects exactly that pair's
events among all the website's events. -/
theorem withId_filter_eq (evs : List Event) (name id : String) (hid : id ≠ "") :
    (evs.filter (fun e => e.event_id != "")).filter
      (fun e => e.event_name == name && e.event_id == id) =
      idGroupEvents evs name id := by
  unfold idGroupEvents
  rw [List.filter_filter]
  apply List.filter_congr
  intro e _
  by_cases h2 : e.event_id = id
  · simp [h2, hid]
  · simp [h2]

/-- Helper: filtering the id-less identifier-carrying events for one
`(event_name, fallback identifier)` pair selects exactly that pair's events
among all the website's events. -/
theorem noId_filter_eq (evs : List Event) (name key : String) :
    (evs.filter (fun e => e.event_id == "" && (fallbackKey e.user_data).isSome)).filter
      (fun e => e.event_name == name && fallbackKey e.user_data == some key) =
      fallbackGroupEvents evs name key := by
  unfold fallbackGroupEvents
  rw [List.filter_filter]
  apply List.filter_congr
  intro e _
  by_cases h3 : fallbackKey e.user_data = some key
  · cases h1 : (e.event_name == name) <;> cases h2 : (e.event_id == "") <;>
      simp [h1, h2, h3]
  · have hb : (fallbackKey e.user_data == some key) = false := by
      rw [beq_eq_false_iff_ne]
      exact h3
    simp [hb]

/-- C3 amended: `find_duplicates` returns exactly the duplicate groups of
the website's events — a group is in the output iff it is either a primary
group (non-empty `event_id`; more than one of the website's events shares
its `(event_name, event_id)`; count, first_seen and last_seen computed over
exactly those events) or a fallback group (empty `event_id`; more than one
id-less event shares its `event_name` and a fallback identifier, received
within the 60-second window; count, first_seen and last_seen over those
events); the two-duplicate scenario for website 7 returns the single
count-2 group and every other website gets zero groups. -/
theorem find_duplicates_amended :
    (∀ (s : Store) (ws : Nat) (g : DuplicateGroup),
      g ∈ find_duplicates s ws ↔
        ((g.event_id ≠ "" ∧
          1 < (idGroupEvents (eventsOf s ws) g.event_name g.event_id).length ∧
          g.count = (idGroupEvents (eventsOf s ws) g.event_name g.event_id).length ∧
          g.first_seen = firstSeen (idGroupEvents (eventsOf s ws) g.event_name g.event_id) ∧
          g.last_seen = lastSeen (idGroupEvents (eventsOf s ws) g.event_name g.event_id)) ∨
         (g.event_id = "" ∧ ∃ key : String,
          1 < (fallbackGroupEvents (eventsOf s ws) g.event_name key).length ∧
          lastSeen (fallbackGroupEvents (eventsOf s ws) g.event_name key) -
            firstSeen (fallbackGroupEvents (eventsOf s ws) g.event_name key) ≤ DUP_WINDOW ∧
          g.count = (fallbackGroupEvents (eventsOf s ws) g.event_name key).length ∧
          g.first_seen = firstSeen (fallbackGroupEvents (eventsOf s ws) g.event_name key) ∧
          g.last_seen = lastSeen (fallbackGroupEvents (eventsOf s ws) g.event_name key)))) ∧
    find_duplicates dupStore 7 = [⟨"Purchase", "abc", 2, 60, 65⟩] ∧
    (∀ w : Nat, w ≠ 7 → find_duplicates dupStore w = []) := by
  refine ⟨?_, by decide, ?_⟩
  · intro s ws g
    constructor
    · intro hg
      unfold find_duplicates dupGroupsOf at hg
      rw [mem_sortGroups, List.mem_append] at hg
      cases hg with
      | inl hid =>
        left
        unfold idDupGroupsOf at hid
        rw [List.mem_filterMap] at hid
        obtain ⟨k, hk, hsome⟩ := hid
        rw [List.mem_dedup, List.mem_map] at hk
        obtain ⟨e, he, hke⟩ := hk
        subst hke
        have heid : (e.event_id != "") = true := (List.mem_filter.mp he).2
        have hk2 : e.event_id ≠ "" := by simpa using heid
        dsimp only at hsome
        split at hsome
        · next hlen =>
          obtain rfl := Option.some.inj hsome
          dsimp only
          rw [withId_filter_eq (eventsOf s ws) e.event_name e.event_id hk2] at hlen ⊢
          exact ⟨hk2, hlen, rfl, rfl, rfl⟩
        · exact absurd hsome (by simp)
      | inr hfb =>
        right
        unfold fallbackDupGroupsOf at hfb
        rw [List.mem_filterMap] at hfb
        obtain ⟨k, hk, hsome⟩ := hfb
        rw [List.mem_dedup, List.mem_map] at hk
        obtain ⟨e, he, hke⟩ := hk
        subst hke
        have hnoid := (List.mem_filter.mp he).2
        rw [Bool.and_eq_true] at hnoid
        obtain ⟨hid0, hsome0⟩ := hnoid
        obtain ⟨key, hkey⟩ := Option.isSome_iff_exists.mp hsome0
        dsimp only at hsome
        rw [hkey] at hsome
        split at hsome
        · next hcnd =>
          obtain rfl := Option.some.inj hsome
          dsimp only
          rw [noId_filter_eq (eventsOf s ws) e.event_name key] at hcnd ⊢
          exact ⟨rfl, key, hcnd.1, hcnd.2, rfl, rfl, rfl⟩
        · exact absurd hsome (by simp)
    · intro hg
      obtain ⟨gn, gi, gc, gf, gl⟩ := g
      dsimp only at hg
      unfold find_duplicates dupGroupsOf
      rw [mem_sortGroups, List.mem_append]
      cases hg with
      | inl h =>
        obtain ⟨hne, hlen, hcount, hfirst, hlast⟩ := h
        left
        unfold idDupGroupsOf
        rw [List.mem_filterMap]
        refine ⟨(gn, gi), ?_, ?_⟩
        · rw [List.mem_dedup, List.mem_map]
          have hnil : idGroupEvents (eventsOf s ws) gn gi ≠ [] := by
            intro h0
            rw [h0] at hlen
            simp at hlen
          obtain ⟨e, he⟩ := List.exists_mem_of_ne_nil _ hnil
          unfold idGroupEvents at he
          obtain ⟨hevs, hpred⟩ := List.mem_filter.mp he
          rw [Bool.and_eq_true] at hpred
          have hn := eq_of_beq hpred.1
          have hi := eq_of_beq hpred.2
          refine ⟨e, List.mem_filter.mpr ⟨hevs, ?_⟩, ?_⟩
          · rw [hi]
            simpa using hne
          · rw [hn, hi]
        · dsimp only
          rw [withId_filter_eq (eventsOf s ws) gn gi hne]
          rw [if_pos hlen]
          rw [hcount, hfirst, hlast]
      | inr h =>
        obtain ⟨hid, key, hlen, hwin, hcount, hfirst, hlast⟩ := h
        subst hid
        right
        unfold fallbackDupGroupsOf
        rw [List.mem_filterMap]
        refine ⟨(gn, some key), ?_, ?_⟩
        · rw [List.mem_dedup, List.mem_map]
          have hnil : fallbackGroupEvents (eventsOf s ws) gn key ≠ [] := by
            intro h0
            rw [h0] at hlen
            simp at hlen
          obtain ⟨e, he⟩ := List.exists_mem_of_ne_nil _ hnil
          unfold fallbackGroupEvents at he
          obtain ⟨hevs, hpred⟩ := List.mem_filter.mp he
          simp only [Bool.and_eq_true] at hpred
          obtain ⟨⟨h1, h2⟩, h3⟩ := hpred
          refine ⟨e, List.mem_filter.mpr ⟨hevs, ?_⟩, ?_⟩
          · rw [Bool.and_eq_true]
            refine ⟨h1, ?_⟩
            rw [eq_of_beq h3]
            rfl
          · rw [eq_of_beq h2, eq_of_beq h3]
        · dsimp only
          rw [noId_filter_eq (eventsOf s ws) gn key]
          rw [if_pos ⟨hlen, hwin⟩]
          rw [hcount, hfirst, hlast]
  · intro w hw
    have h7 : (7 == w) = false := by
      simpa using Ne.symm hw
    have h0 : eventsOf dupStore w = [] := by
      simp [eventsOf, dupStore, List.filter_cons, h7]
    unfold find_duplicates
    rw [h0]
    rfl

/-- C3 witness: the theorem's completeness direction applied at the
duplicate-scenario store — its single `(Purchase, abc)` pair has two
matching events, so the count-2 group is in the output — together with the
other-website part at website 1. -/
theorem find_duplicates_amended_witness :
    (⟨"Purchase", "abc", 2, 60, 65⟩ : DuplicateGroup) ∈ find_duplicates dupStore 7 ∧
    1 < (idGroupEvents (eventsOf dupStore 7) "Purchase" "abc").length ∧
    (1 : Nat) ≠ 7 ∧ find_duplicates dupStore 1 = [] := by
  have h17 : (1 : Nat) ≠ 7 := by decide
  have hid : ("abc" : String) ≠ "" := by decide
  have hlen : 1 < (idGroupEvents (eventsOf dupStore 7) "Purchase" "abc").length := by decide
  have hm := (find_duplicates_amended.1 dupStore 7 ⟨"Purchase", "abc", 2, 60, 65⟩).mpr
    (Or.inl ⟨hid, hlen, by decide, by decide, by decide⟩)
  exact ⟨hm, hlen, h17, find_duplicates_amended.2.2 1 h17⟩

/-- Helper: a health metric raises no alert exactly when its status is
healthy. -/
theorem healthAlert_eq_none_iff (m : HealthMetric) :
    healthAlert m = none ↔ m.status = HealthStatus.healthy := by
  cases h : m.status <;> simp [healthAlert, h]

/-- Helper: a duplicate group raises no alert exactly when its count is
below the alert threshold. -/
theorem dupAlert_eq_none_iff (g : DuplicateGroup) :
    dupAlert g = none ↔ g.count < DUP_ALERT_THRESHOLD := by
  unfold dupAlert
  split_ifs with h <;> simp <;> omega

/-- C4: the three read endpoints are scoped to the authenticated website —
their results depend only on that website's events, and an event belonging
to a different website never changes them. -/
theorem cross_tenant_isolation :
    (∀ (s t : Store) (ws : Nat), eventsOf s ws = eventsOf t ws →
      score s ws = score t ws ∧ find_duplicates s ws = find_duplicates t ws ∧
        alerts s ws = alerts t ws) ∧
    (∀ (s : Store) (e : Event) (ws : Nat), e.website_id ≠ ws →
      score (e :: s) ws = score s ws ∧
        find_duplicates (e :: s) ws = find_duplicates s ws ∧
        alerts (e :: s) ws = alerts s ws) := by
  have base : ∀ (s t : Store) (ws : Nat), eventsOf s ws = eventsOf t ws →
      score s ws = score t ws ∧ find_duplicates s ws = find_duplicates t ws ∧
        alerts s ws = alerts t ws := by
    intro s t ws h
    have h1 : score s ws = score t ws := by unfold score; rw [h]
    have h2 : find_duplicates s ws = find_duplicates t ws := by
      unfold find_duplicates; rw [h]
    exact ⟨h1, h2, by unfold alerts; rw [h1, h2]⟩
  refine ⟨base, ?_⟩
  intro s e ws hne
  apply base
  unfold eventsOf
  rw [List.filter_cons, if_neg (by simp [hne])]

/-- C4 witness: an event for website 9 prepended to the duplicate-scenario
store changes none of website 7's read results. -/
theorem cross_tenant_isolation_witness :
    (⟨5, 9, "Signup", "q", 10, 10, {}⟩ : Event).website_id ≠ 7 ∧
    score ((⟨5, 9, "Signup", "q", 10, 10, {}⟩ : Event) :: dupStore) 7 = score dupStore 7 ∧
    find_duplicates ((⟨5, 9, "Signup", "q", 10, 10, {}⟩ : Event) :: dupStore) 7 =
      find_duplicates dupStore 7 ∧
    alerts ((⟨5, 9, "Signup", "q", 10, 10, {}⟩ : Event) :: dupStore) 7 = alerts dupStore 7 := by
  have h : (⟨5, 9, "Signup", "q", 10, 10, {}⟩ : Event).website_id ≠ 7 := by decide
  exact ⟨h, cross_tenant_isolation.2 dupStore ⟨5, 9, "Signup", "q", 10, 10, {}⟩ 7 h⟩

/-- C5: the Alert Generator returns the empty list exactly when every health
metric is healthy and no duplicate group reaches the alert threshold, and
the `AlertsDisplay` component renders the explicit all-nominal state exactly
for the empty list (a success outcome, not an error). -/
theorem alerts_empty_iff_all_nominal :
    ∀ (s : Store) (ws : Nat),
      (alerts s ws = [] ↔
        (∀ m ∈ score s ws, m.status = HealthStatus.healthy) ∧
        (∀ g ∈ find_duplicates s ws, g.count < DUP_ALERT_THRESHOLD)) ∧
      (alertsDisplayView false none (alerts s ws) = AlertsView.allNominal ↔
        alerts s ws = []) := by
  intro s ws
  constructor
  · unfold alerts
    rw [List.append_eq_nil]
    constructor
    · rintro ⟨h1, h2⟩
      rw [List.filterMap_eq_nil_iff] at h1 h2
      exact ⟨fun m hm => (healthAlert_eq_none_iff m).mp (h1 m hm),
        fun g hg => (dupAlert_eq_none_iff g).mp (h2 g hg)⟩
    · rintro ⟨h1, h2⟩
      rw [List.filterMap_eq_nil_iff, List.filterMap_eq_nil_iff]
      exact ⟨fun m hm => (healthAlert_eq_none_iff m).mpr (h1 m hm),
        fun g hg => (dupAlert_eq_none_iff g).mpr (h2 g hg)⟩
  · cases h : alerts s ws <;> simp [alertsDisplayView, h]

/-- C6: every emitted health metric has a positive sample count and an
observed event name, and with zero events for the website the scorer, the
duplicate detector and the alert generator all return empty results rather
than failing. -/
theorem health_scorer_total_and_omits_unobserved :
    (∀ (s : Store) (ws : Nat) (m : HealthMetric), m ∈ score s ws →
      0 < m.sample_count ∧ ∃ e ∈ eventsOf s ws, e.event_name = m.event_name) ∧
    (∀ (s : Store) (ws : Nat), eventsOf s ws = [] →
      score s ws = [] ∧ find_duplicates s ws = [] ∧ alerts s ws = []) := by
  constructor
  · intro s ws m hm
    unfold score healthOf at hm
    rw [List.mem_map] at hm
    obtain ⟨n, hn, rfl⟩ := hm
    rw [List.mem_dedup, List.mem_map] at hn
    obtain ⟨e, he, hname⟩ := hn
    have hmem : e ∈ (eventsOf s ws).filter (fun x => x.event_name == n) :=
      List.mem_filter.mpr ⟨he, by simp [hname]⟩
    exact ⟨List.length_pos_of_mem hmem, e, he, hname⟩
  · intro s ws h
    have h1 : score s ws = [] := by unfold score; rw [h]; rfl
    have h2 : find_duplicates s ws = [] := by unfold find_duplicates; rw [h]; rfl
    exact ⟨h1, h2, by unfold alerts; rw [h1, h2]; rfl⟩

/-- C6 witness: the lone sampled metric of the user-agent-only store has a
positive sample count, and website 3 (with no events in the empty store)
gets empty results from all three computations. -/
theorem health_scorer_total_and_omits_unobserved_witness :
    (⟨"Purchase", 1, HealthStatus.error, 1⟩ : HealthMetric) ∈ score [uaEvent] 1 ∧
    0 < (⟨"Purchase", 1, HealthStatus.error, 1⟩ : HealthMetric).sample_count ∧
    eventsOf [] 3 = [] ∧ score [] 3 = [] ∧ find_duplicates [] 3 = [] ∧
    alerts [] 3 = [] := by
  have hm : (⟨"Purchase", 1, HealthStatus.error, 1⟩ : HealthMetric) ∈ score [uaEvent] 1 := by
    simp [score, eventsOf, healthOf, uaEvent, eventScore, identifierWeight, statusOf,
      HEALTHY_THRESHOLD, WARNING_THRESHOLD, MAX_WEIGHT_SUM, W_EMAIL, W_PHONE,
      W_BROWSER_ID, W_CLICK_ID, W_USER_AGENT]
  have hempty : eventsOf ([] : Store) 3 = [] := rfl
  have main := health_scorer_total_and_omits_unobserved.2 [] 3 hempty
  exact ⟨hm, (health_scorer_total_and_omits_unobserved.1 [uaEvent] 1 _ hm).1,
    hempty, main⟩

/-- Helper: the key of an entry surviving the tracker's normalization was a
key of the original object. -/
theorem mem_cleanEntries_key {kv : String × String} {l : List (String × Option String)}
    (h : kv ∈ cleanEntries l) : kv.1 ∈ l.map Prod.fst := by
  unfold cleanEntries at h
  rw [List.mem_filterMap] at h
  obtain ⟨p, hp, hsome⟩ := h
  cases hv : p.2 with
  | none => rw [hv] at hsome; exact absurd hsome (by simp)
  | some v =>
    rw [hv] at hsome
    dsimp only at hsome
    by_cases hve : v = ""
    · rw [if_pos hve] at hsome; exact absurd hsome (by simp)
    · rw [if_neg hve] at hsome
      obtain rfl := Option.some.inj hsome
      exact List.mem_map.mpr ⟨p, hp, rfl⟩

/-- Helper: every key the tracker gathers by itself into `user_data` is one
of its eight base keys. -/
theorem getUserData_keys (env : BrowserEnv) :
    ∀ kv ∈ getUserData env, kv.1 ∈ trackerBaseKeys := by
  intro kv h
  have hk := mem_cleanEntries_key h
  simpa [getMarketingData, trackerBaseKeys] using hk

/-- Helper: an entry of the merged object comes from the base object or from
the override object. -/
theorem mem_mergeEntries {kv : String × String} {base override : List (String × String)}
    (h : kv ∈ mergeEntries base override) : kv ∈ base ∨ kv ∈ override := by
  unfold mergeEntries at h
  rw [List.mem_append] at h
  rcases h with h | h
  · exact Or.inl (List.mem_filter.mp h).1
  · exact Or.inr h

/-- Helper: generated event ids are never the empty string. -/
theorem generateEventId_ne_empty (env : BrowserEnv) : generateEventId env ≠ "" := by
  unfold generateEventId
  intro h
  have hlen := congrArg String.length h
  rw [String.length_append, String.length_append, String.length_append] at hlen
  have h14 : ("ctracking_evt_" : String).length = 14 := rfl
  have h0 : ("" : String).length = 0 := rfl
  omega

/-- C8 counterexample: two calls to the public `track` function violate the
claimed body schema.  With a `_fbp` cookie set, `track("Purchase")`
transmits a `user_data` object carrying the key "fbp", which is not among
the claimed keys (email, phone, browser_id, click_id, user_agent, utm_*,
referer); and `track("")` transmits a payload from which `sendEvent`'s
cleaning has dropped `event_name` entirely, so the required `event_name`
field is absent. -/
theorem track_payload_schema_counterexample :
    (track demoEnv "Purchase" [] []).user_data =
      some [("user_agent", "Mozilla/5.0"), ("fbp", "fb.1.1700.123")] ∧
    claimedUserDataKey "fbp" = false ∧
    claimedPayloadSchema (track demoEnv "Purchase" [] []) = false ∧
    (track demoEnv "" [] []).event_name = none ∧
    claimedPayloadSchema (track demoEnv "" [] []) = false := by
  refine ⟨by decide, by decide, by decide, by decide, by decide⟩

/-- C8 amended: every call to the public `track` function transmits a
payload whose `event_time` is whole unix seconds, whose `event_id` is the
freshly generated non-empty id, and whose `custom_data` is the caller's
object; `event_name` is carried exactly when the given name is non-empty
and `event_source_url` exactly when the page URL is non-empty (empty
strings are dropped by `sendEvent`'s cleaning); `user_data` is normalized —
every transmitted entry is non-empty and every key is one of the tracker's
base keys (user_agent, fbp, fbc, source, utm_*, referer — fbp/fbc being the
browser_id/click_id equivalents) or comes from the caller-supplied user
data (e.g. email, phone). -/
theorem track_payload_amended :
    ∀ (env : BrowserEnv) (eventName : String)
      (customData userData : List (String × String)),
      (track env eventName customData userData).event_name =
        (if eventName = "" then none else some eventName) ∧
      (track env eventName customData userData).event_time = some (env.nowMs / 1000) ∧
      (track env eventName customData userData).event_id = some (generateEventId env) ∧
      generateEventId env ≠ "" ∧
      (track env eventName customData userData).event_source_url =
        (if env.href = "" then none else some env.href) ∧
      (track env eventName customData userData).custom_data = some customData ∧
      ∃ entries, (track env eventName customData userData).user_data = some entries ∧
        ∀ kv ∈ entries, kv.2 ≠ "" ∧
          (kv.1 ∈ trackerBaseKeys ∨ kv.1 ∈ userData.map Prod.fst) := by
  intro env eventName customData userData
  refine ⟨rfl, rfl, ?_, generateEventId_ne_empty env, rfl, rfl, ?_⟩
  · simp [track, sendEvent, cleanStringField, generateEventId_ne_empty env]
  · refine ⟨_, rfl, ?_⟩
    intro kv hkv
    rw [List.mem_filter] at hkv
    obtain ⟨hmem, hne⟩ := hkv
    refine ⟨by simpa using hne, ?_⟩
    rcases mem_mergeEntries hmem with h | h
    · exact Or.inl (getUserData_keys env kv h)
    · exact Or.inr (List.mem_map.mpr ⟨kv, h, rfl⟩)

/-- C8 witness: the amended theorem applied to the demo browser state, a
"Purchase" event and an email supplied by the caller: the event name is
carried (it is non-empty), the time is the clock in whole seconds and the
generated id is non-empty. -/
theorem track_payload_amended_witness :
    (track demoEnv "Purchase" [] [("email", "a@b.c")]).event_name = some "Purchase" ∧
    (track demoEnv "Purchase" [] [("email", "a@b.c")]).event_time =
      some (demoEnv.nowMs / 1000) ∧
    generateEventId demoEnv ≠ "" := by
  have main := track_payload_amended demoEnv "Purchase" [] [("email", "a@b.c")]
  refine ⟨?_, main.2.1, main.2.2.2.1⟩
  rw [main.1]
  rfl

/-- C9: whatever `registerUser` would return, submitting the registration
form throws a ReferenceError at the `setSuccess(false)` call (its state
declaration is commented out) before the try block is entered, so
`registerUser` and `onRegisterSuccess` are never called and no error message
is set (the error state holds the null from `setError(null)`). -/
theorem registration_submit_reference_error :
    ∀ registerOutcome : Except String Unit,
      handleSubmit registrationFormScope registerOutcome =
        { outcome := Except.error (JsError.referenceError "setSuccess"),
          calledRegisterUser := false, calledOnRegisterSuccess := false,
          errorState := some none } :=
  fun _ => rfl

/-- C10: `authFetch` never hands a 401 response back to its caller — a
non-401 resolution is returned as-is, and a 401 resolution dispatches the
`sessionExpired` window event and throws "Session expired." instead. -/
theorem authFetch_never_returns_401 :
    (∀ (token : Option String) (resp r : JsResponse) (evs : List String),
      authFetch token resp = (Except.ok r, evs) → r.status ≠ 401) ∧
    (∀ (token : Option String) (resp : JsResponse), resp.status = 401 →
      authFetch token resp =
        (Except.error "Session expired.", ["sessionExpired"])) := by
  constructor
  · intro token resp r evs h
    unfold authFetch at h
    split at h
    · simp at h
    · next hcond =>
      have h1 := (Prod.ext_iff.mp h).1
      obtain rfl := Except.ok.inj h1
      simpa using hcond
  · intro token resp h
    unfold authFetch
    rw [if_pos (by simp [h])]

/-- C10 witness: the theorem applied to a concrete 200 response (returned
unchanged, status not 401) and a concrete 401 response (session-expired
event plus throw). -/
theorem authFetch_never_returns_401_witness :
    authFetch none ⟨200, true, "ok"⟩ = (Except.ok ⟨200, true, "ok"⟩, []) ∧
    (⟨200, true, "ok"⟩ : JsResponse).status ≠ 401 ∧
    (⟨401, false, ""⟩ : JsResponse).status = 401 ∧
    authFetch none ⟨401, false, ""⟩ =
      (Except.error "Session expired.", ["sessionExpired"]) := by
  refine ⟨rfl, ?_, rfl, ?_⟩
  · exact authFetch_never_returns_401.1 none ⟨200, true, "ok"⟩ ⟨200, true, "ok"⟩ [] rfl
  · exact authFetch_never_returns_401.2 none ⟨401, false, ""⟩ rfl

/-- C7 witness: a payload with an empty `event_name` is invalid and its
ingestion rejects with a validation error, leaving a concrete store intact. -/
theorem invalid_payload_rejected_store_unchanged_witness :
    validPayload ⟨"", 100, "abc", {}⟩ = false ∧
    ingest [⟨0, 1, "Purchase", "abc", 50, 60, {}⟩] 1 200 7 ⟨"", 100, "abc", {}⟩ =
      (Except.error IngestError.validationError, [⟨0, 1, "Purchase", "abc", 50, 60, {}⟩]) := by
  have h : validPayload ⟨"", 100, "abc", {}⟩ = false := by decide
  exact ⟨h, invalid_payload_rejected_store_unchanged
    [⟨0, 1, "Purchase", "abc", 50, 60, {}⟩] 1 200 7 ⟨"", 100, "abc", {}⟩ h⟩

end ClarityTracking
